import Mathlib

/-!
Shallow embedding of the supervised/unsupervised pixel-classification core
of the ot_sip repository, and theorems settling the frozen claims about it.

Sources embedded:
- classification/supclass/band_stacker.py (BandStacker.stack)
- classification/supclass/data_extractor.py (TrainingDataExtractor.extract)
- classification/supclass/accuracy.py (AccuracyAssessor.report)
- classification/supclass/classifiers/decision_tree.py (train/predict)
- code/satimgproc/classify.py (DataPreprocessor, AccuracyAssessor, DecisionTree)
- code/interface/supervised_ui.py (full-image prediction step)
- code/interface/unsupervised_ui.py (flatten / valid-mask / sentinel logic)

External collaborators (numpy, scikit-learn, rasterio) are modelled by
their documented behavior at exactly the call sites the code uses:
numpy.stack shape checking, boolean-mask indexing in row-major order,
sklearn train_test_split with a fixed seed, sklearn accuracy metrics with
the zero-division convention, and sklearn DecisionTreeClassifier.fit
input validation.
-/

namespace OtSip

/-- A single pixel band value; `none` models a numpy NaN. -/
abbrev Val := Option ℚ

/-- One raster band: rows of pixel values (a 2-D array). -/
abbrev Band := List (List Val)

/-- A stacked image: rows of columns of per-pixel band vectors,
numpy shape (rows, cols, bands). -/
abbrev PixelGrid := List (List (List Val))

/-- Spatial shape of a band as numpy reports it: (row count, row width). -/
def bandShape (b : Band) : Nat × Nat := (b.length, (b.headD []).length)

/-- The band is a well-formed h-by-w rectangular array. -/
def BandIsShape (b : Band) (h w : Nat) : Prop :=
  b.length = h ∧ ∀ r ∈ b, r.length = w

/-- Entry of a band at row r, column c. -/
def bandAt (b : Band) (r c : Nat) : Val := (b.getD r []).getD c none

/-- Models numpy.stack(bands, axis=-1) as called by the stackers: demands a
non-empty list of same-shape arrays and produces the (rows, cols, bands)
grid; a shape disagreement raises numpy's ValueError. -/
def npStack (bands : List Band) : Except String PixelGrid :=
  match bands with
  | [] => .error "ValueError: need at least one array to stack"
  | b0 :: rest =>
    if (b0 :: rest).all (fun b => decide (bandShape b = bandShape b0)) then
      .ok ((List.range (bandShape b0).1).map (fun r =>
        (List.range (bandShape b0).2).map (fun c =>
          (b0 :: rest).map (fun b => bandAt b r c))))
    else .error "ValueError: all input arrays must have the same shape"

/-- A raster file as rasterio exposes it: src.read(1) returns the first
band; any further bands are never read by this code. -/
structure RasterFile where
  band1 : Band
  restBands : List Band
deriving DecidableEq

/-- rasterio src.read(1): the first band of the file. -/
def readFirstBand (f : RasterFile) : Band := f.band1

namespace BandStacker

/-- classification/supclass/band_stacker.py, BandStacker.stack (also the
body of DataPreprocessor.stack_bands in code/satimgproc/classify.py):
appends src.read(1) for every file in order, then np.stack(bands, axis=-1). -/
def stack (file_list : List RasterFile) : Except String PixelGrid :=
  npStack (file_list.map readFirstBand)

end BandStacker

/-- Helper: a well-formed band's numpy shape, collapsing the width of an
empty array to 0 the way the head-row probe does. -/
theorem bandShape_of_isShape (b : Band) (h w : Nat) (hb : BandIsShape b h w) :
    bandShape b = (h, if h = 0 then 0 else w) := by
  obtain ⟨hl, hr⟩ := hb
  unfold bandShape
  rcases b with _ | ⟨r0, rest⟩
  · simp at hl
    simp [← hl]
  · simp at hl
    have h0 : r0.length = w := hr r0 (by simp)
    simp [← hl, List.headD, h0]

/-- Helper: getD over a map of a range evaluates the function. -/
theorem getD_map_range (n : Nat) (f : Nat → α) (i : Nat) (d : α) (hi : i < n) :
    ((List.range n).map f).getD i d = f i := by
  simp [List.getD_eq_getElem?_getD, List.getElem?_map, List.getElem?_range hi]

/-- C2. Band stacking: on a non-empty file list whose first bands are all
h-by-w, stack reads only the first band of each file and returns an
(h, w, N) grid whose band layers follow the input file order: the vector at
each pixel is the list of the files' first-band values in file order. -/
theorem C2_band_stacking (files : List RasterFile) (h w : Nat)
    (hne : files ≠ [])
    (hsh : ∀ f ∈ files, BandIsShape f.band1 h w) :
    ∃ px, BandStacker.stack files = Except.ok px ∧
      px.length = h ∧
      (∀ row ∈ px, row.length = w ∧ ∀ cell ∈ row, cell.length = files.length) ∧
      (∀ r, r < h → ∀ c, c < w →
        (px.getD r []).getD c [] = files.map (fun f => bandAt f.band1 r c)) := by
  rcases hfiles : files with _ | ⟨f0, fs⟩
  · exact absurd hfiles hne
  subst hfiles
  have hsh0 : bandShape f0.band1 = (h, if h = 0 then 0 else w) :=
    bandShape_of_isShape _ _ _ (hsh f0 (by simp))
  have hall : ∀ g ∈ f0 :: fs, bandShape g.band1 = bandShape f0.band1 := by
    intro g hg
    rw [bandShape_of_isShape _ _ _ (hsh g hg), hsh0]
  unfold BandStacker.stack npStack
  simp only [List.map_cons]
  have hguard : ((readFirstBand f0 :: fs.map readFirstBand).all
      (fun b => decide (bandShape b = bandShape (readFirstBand f0)))) = true := by
    rw [List.all_eq_true]
    intro b hb
    simp only [List.mem_cons, List.mem_map] at hb
    rcases hb with hb | ⟨g, hg, hgb⟩
    · subst hb; simp
    · subst hgb
      simpa [readFirstBand] using hall g (by simp [hg])
  rw [if_pos hguard]
  refine ⟨_, rfl, ?_, ?_, ?_⟩
  · simp [readFirstBand, hsh0]
  · intro row hrow
    simp only [List.mem_map] at hrow
    obtain ⟨r, hr, hrow⟩ := hrow
    subst hrow
    constructor
    · simp only [readFirstBand, hsh0, List.length_map, List.length_range]
      rcases Nat.eq_zero_or_pos h with h0 | hpos
      · subst h0
        simp [readFirstBand, hsh0] at hr
      · simp [Nat.pos_iff_ne_zero.mp hpos]
    · intro cell hcell
      simp only [List.mem_map] at hcell
      obtain ⟨c, _, hcell⟩ := hcell
      subst hcell
      simp
  · intro r hr c hc
    have hne0 : h ≠ 0 := Nat.pos_iff_ne_zero.mp (Nat.lt_of_le_of_lt (Nat.zero_le r) hr)
    have hshape1 : (bandShape (readFirstBand f0)).1 = h := by
      simp [readFirstBand, hsh0]
    have hshape2 : (bandShape (readFirstBand f0)).2 = w := by
      simp [readFirstBand, hsh0, hne0]
    rw [hshape1, hshape2, getD_map_range h _ r _ hr, getD_map_range w _ c _ hc]
    simp [readFirstBand]

/-- Two concrete 2x2 single-band files used to witness C2. -/
def fileA : RasterFile :=
  ⟨[[some 1, some 2], [some 3, some 4]], []⟩

/-- Second witness file; its extra band must be ignored by the stacker. -/
def fileB : RasterFile :=
  ⟨[[some 5, some 6], [some 7, some 8]], [[[some 9, some 9], [some 9, some 9]]]⟩

/-- C2 witness: the theorem applied to two concrete 2x2 files. -/
theorem C2_band_stacking_witness :
    ∃ px, BandStacker.stack [fileA, fileB] = Except.ok px ∧
      px.length = 2 ∧
      (∀ row ∈ px, row.length = 2 ∧ ∀ cell ∈ row, cell.length = [fileA, fileB].length) ∧
      (∀ r, r < 2 → ∀ c, c < 2 →
        (px.getD r []).getD c [] = [fileA, fileB].map (fun f => bandAt f.band1 r c)) :=
  C2_band_stacking [fileA, fileB] 2 2 (by decide)
    (by intro f hf; fin_cases hf <;> exact ⟨by decide, by decide⟩)

/-- C7. Shape mismatch: whenever two files in the list carry first bands of
different spatial shapes, stacking fails with numpy's shape-mismatch
ValueError (the failure mode the spec taxonomy names ShapeMismatchError)
and returns no array at all. -/
theorem C7_shape_mismatch (files : List RasterFile) (f g : RasterFile)
    (hf : f ∈ files) (hg : g ∈ files)
    (hfg : bandShape f.band1 ≠ bandShape g.band1) :
    BandStacker.stack files =
      Except.error "ValueError: all input arrays must have the same shape" := by
  rcases hfiles : files with _ | ⟨f0, fs⟩
  · subst hfiles; simp at hf
  subst hfiles
  unfold BandStacker.stack npStack
  simp only [List.map_cons]
  have hguard : ¬ ((readFirstBand f0 :: fs.map readFirstBand).all
      (fun b => decide (bandShape b = bandShape (readFirstBand f0)))) = true := by
    intro hallb
    rw [List.all_eq_true] at hallb
    have hmem : ∀ x ∈ f0 :: fs, bandShape x.band1 = bandShape f0.band1 := by
      intro x hx
      rcases List.mem_cons.mp hx with hx | hx
      · subst hx; rfl
      · have := hallb (readFirstBand x) (by
          simp only [List.mem_cons, List.mem_map]
          exact Or.inr ⟨x, hx, rfl⟩)
        simpa [readFirstBand] using this
    exact hfg ((hmem f hf).trans (hmem g hg).symm)
  rw [if_neg hguard]

/-- A 10x10 all-zero single-band file (spec shape-mismatch scenario). -/
def fileSquare10 : RasterFile :=
  ⟨List.replicate 10 (List.replicate 10 (some 0)), []⟩

/-- A 10x11 all-zero single-band file (spec shape-mismatch scenario). -/
def fileWide11 : RasterFile :=
  ⟨List.replicate 10 (List.replicate 11 (some 0)), []⟩

/-- C7 witness: stacking a (10,10) band with a (10,11) band fails with the
shape-mismatch error. -/
theorem C7_shape_mismatch_witness :
    BandStacker.stack [fileSquare10, fileWide11] =
      Except.error "ValueError: all input arrays must have the same shape" :=
  C7_shape_mismatch [fileSquare10, fileWide11] fileSquare10 fileWide11
    (by decide) (by decide) (by decide)

/-! ## Training-data extraction (data_extractor.py / classify.py) -/

/-- np.isnan(row).any() is false: the per-pixel band vector has no NaN. -/
def rowValid (v : List Val) : Bool := v.all Option.isSome

/-- One row of numpy boolean-mask indexing image_array[mask]: the cells of
the row whose mask entry is True, in column order. -/
def rowSelect (prow : List (List Val)) (mrow : List Bool) : List (List Val) :=
  (prow.zip mrow).filterMap (fun cm => if cm.2 then some cm.1 else none)

/-- numpy image_array[mask] on a (rows, cols, bands) array with a 2-D
Boolean mask: the selected band vectors in row-major order. -/
def maskSelect (px : PixelGrid) (mask : List (List Bool)) : List (List Val) :=
  ((px.zip mask).map (fun rm => rowSelect rm.1 rm.2)).flatten

/-- samples[~np.isnan(samples).any(axis=1)]: drop rows containing a NaN. -/
def dropNaN (samples : List (List Val)) : List (List Val) :=
  samples.filter rowValid

/-- A labeled polygon after rasterization: rasterio geometry_mask with
invert=True (an external collaborator) supplies the Boolean inclusion mask;
label is the polygon row's class-attribute value. -/
structure PolyLabeled where
  mask : List (List Bool)
  label : Int

/-- Samples gathered for one polygon, after the NaN filter. -/
def polygonSamples (px : PixelGrid) (p : PolyLabeled) : List (List Val) :=
  dropNaN (maskSelect px p.mask)

/-- X_all = np.vstack(X): per-polygon samples concatenated in polygon order. -/
def extractX (px : PixelGrid) (polys : List PolyLabeled) : List (List Val) :=
  polys.flatMap (fun p => polygonSamples px p)

/-- y_all = np.concatenate(y), where each polygon contributes
np.full(samples.shape[0], label). -/
def extractY (px : PixelGrid) (polys : List PolyLabeled) : List Int :=
  polys.flatMap (fun p => List.replicate (polygonSamples px p).length p.label)

/-- Modelled: the index shuffle of sklearn train_test_split with
random_state fixed to 42. The exact permutation is opaque library
behavior; it is modelled as a deterministic, seed-indexed permutation of
List.range n. Every property the pipeline relies on (determinism,
partitioning, the 20% test fraction) depends only on this being a fixed
permutation of the index range. -/
def shuffleIdx (seed n : Nat) : List Nat := (List.range n).rotate seed

/-- sklearn train_test_split(X, y, test_size=0.2, random_state=42) as the
extractors call it: n_test = ceil(0.2 * n), a seed-fixed shuffle of the
index range, test = the first n_test shuffled indices, train = the rest;
X and y are subset by the same indices, preserving row/label pairing.
Returns (X_train, X_test, y_train, y_test). -/
def trainTestSplit (X : List (List Val)) (y : List Int) :
    List (List Val) × List (List Val) × List Int × List Int :=
  let n := X.length
  let nTest := (n + 4) / 5
  let idx := shuffleIdx 42 n
  ((idx.drop nTest).map (fun i => X.getD i []),
   (idx.take nTest).map (fun i => X.getD i []),
   (idx.drop nTest).map (fun i => y.getD i 0),
   (idx.take nTest).map (fun i => y.getD i 0))

namespace TrainingDataExtractor

/-- classification/supclass/data_extractor.py, TrainingDataExtractor.extract
(the same body as DataPreprocessor.extract_training_data in
code/satimgproc/classify.py): per polygon, rasterize, gather the masked
pixels, drop NaN rows, label with the polygon attribute; concatenate across
polygons; then train_test_split(test_size=0.2, random_state=42). -/
def extract (px : PixelGrid) (polys : List PolyLabeled) :
    List (List Val) × List (List Val) × List Int × List Int :=
  trainTestSplit (extractX px polys) (extractY px polys)

end TrainingDataExtractor

/-! ### Helper lemmas about the split -/

/-- Reading every index of a list back in order reproduces the list. -/
theorem map_getD_range (l : List α) (d : α) :
    (List.range l.length).map (fun i => l.getD i d) = l := by
  induction l with
  | nil => simp
  | cons a l ih =>
    rw [List.length_cons, List.range_succ_eq_map, List.map_cons, List.map_map]
    simp only [List.getD_cons_zero, Function.comp_def]
    have h2 : ∀ i : Nat, (a :: l).getD (Nat.succ i) d = l.getD i d := fun _ => rfl
    simp only [h2]
    rw [ih]

/-- Reading every index of a zip of equal-length lists reproduces it. -/
theorem map_getD_pair_range (X : List (List Val)) (y : List Int)
    (hy : y.length = X.length) :
    (List.range X.length).map (fun i => (X.getD i [], y.getD i 0)) = X.zip y := by
  have hlen : (X.zip y).length = X.length := by simp [hy]
  have hx := map_getD_range (X.zip y) (([] : List Val), (0 : Int))
  rw [hlen] at hx
  rw [← hx]
  apply List.map_congr_left
  intro i hi
  have hiX : i < X.length := List.mem_range.mp hi
  have hiz : i < (X.zip y).length := by omega
  rw [List.getD_eq_getElem _ _ hiz, List.getElem_zip,
    List.getD_eq_getElem _ _ hiX, List.getD_eq_getElem _ _ (by omega : i < y.length)]

/-- The shuffled index list is a permutation of the index range. -/
theorem shuffleIdx_perm (seed n : Nat) : (shuffleIdx seed n).Perm (List.range n) :=
  List.rotate_perm _ _

/-- Train indices followed by test indices permute the full index range. -/
theorem split_idx_perm (n k : Nat) :
    (((shuffleIdx 42 n).drop k) ++ ((shuffleIdx 42 n).take k)).Perm (List.range n) := by
  refine List.Perm.trans List.perm_append_comm ?_
  rw [List.take_append_drop]
  exact shuffleIdx_perm 42 n

/-- The split preserves (row, label) pairs: train pairs then test pairs
permute the zipped input. -/
theorem trainTestSplit_pair_perm (X : List (List Val)) (y : List Int)
    (hy : y.length = X.length) :
    (((trainTestSplit X y).1.zip (trainTestSplit X y).2.2.1) ++
     ((trainTestSplit X y).2.1.zip (trainTestSplit X y).2.2.2)).Perm (X.zip y) := by
  unfold trainTestSplit
  simp only
  rw [List.zip_map' (fun i => X.getD i []) (fun i => y.getD i 0),
    List.zip_map' (fun i => X.getD i []) (fun i => y.getD i 0),
    ← List.map_append]
  exact ((split_idx_perm X.length ((X.length + 4) / 5)).map _).trans
    (by rw [map_getD_pair_range X y hy])

/-- The split partitions X: train rows then test rows permute X. -/
theorem trainTestSplit_X_perm (X : List (List Val)) (y : List Int) :
    ((trainTestSplit X y).1 ++ (trainTestSplit X y).2.1).Perm X := by
  unfold trainTestSplit
  simp only
  rw [← List.map_append]
  exact ((split_idx_perm X.length ((X.length + 4) / 5)).map _).trans
    (by rw [map_getD_range X])

/-- The split partitions y: train labels then test labels permute y. -/
theorem trainTestSplit_y_perm (X : List (List Val)) (y : List Int)
    (hy : y.length = X.length) :
    ((trainTestSplit X y).2.2.1 ++ (trainTestSplit X y).2.2.2).Perm y := by
  unfold trainTestSplit
  simp only
  rw [← List.map_append]
  refine ((split_idx_perm X.length ((X.length + 4) / 5)).map _).trans ?_
  rw [← hy, map_getD_range y]

/-- ceil(n/5) never exceeds n. -/
theorem nTest_le (n : Nat) : (n + 4) / 5 ≤ n := by omega

/-- The test partition holds exactly ceil(0.2 n) rows. -/
theorem trainTestSplit_test_length (X : List (List Val)) (y : List Int) :
    (trainTestSplit X y).2.1.length = (X.length + 4) / 5 := by
  unfold trainTestSplit
  simp [shuffleIdx, Nat.min_eq_left (nTest_le X.length)]

/-- The train partition holds the remaining rows. -/
theorem trainTestSplit_train_length (X : List (List Val)) (y : List Int) :
    (trainTestSplit X y).1.length = X.length - (X.length + 4) / 5 := by
  unfold trainTestSplit
  simp [shuffleIdx]

/-- C5. Split determinism and fraction: the split bakes in test_size=0.2
and random_state=42, so it is a pure function of (X, y) — two runs on the
same input are identical; the test part holds exactly ceil(0.2 n) rows and
the train part the rest; train and test together are a permutation of the
full sample set, pairing each feature row with its label (a permutation of
the concatenation expresses disjointness and union at once: no sample is
duplicated into both parts and none is lost). -/
theorem C5_split_determinism (X : List (List Val)) (y : List Int)
    (hy : y.length = X.length) :
    trainTestSplit X y = trainTestSplit X y ∧
    (trainTestSplit X y).2.1.length = (X.length + 4) / 5 ∧
    (trainTestSplit X y).1.length = X.length - (X.length + 4) / 5 ∧
    (((trainTestSplit X y).1.zip (trainTestSplit X y).2.2.1) ++
     ((trainTestSplit X y).2.1.zip (trainTestSplit X y).2.2.2)).Perm (X.zip y) ∧
    ((trainTestSplit X y).1 ++ (trainTestSplit X y).2.1).Perm X ∧
    ((trainTestSplit X y).2.2.1 ++ (trainTestSplit X y).2.2.2).Perm y :=
  ⟨rfl, trainTestSplit_test_length X y, trainTestSplit_train_length X y,
   trainTestSplit_pair_perm X y hy, trainTestSplit_X_perm X y,
   trainTestSplit_y_perm X y hy⟩

/-- Concrete 5-sample feature matrix for the C5 witness. -/
def splitWitnessX : List (List Val) :=
  [[some 1], [some 2], [some 3], [some 4], [some 5]]

/-- Concrete labels for the C5 witness. -/
def splitWitnessY : List Int := [10, 20, 30, 40, 50]

/-- C5 witness: the split theorem applied to five concrete samples. -/
theorem C5_split_determinism_witness :
    trainTestSplit splitWitnessX splitWitnessY =
      trainTestSplit splitWitnessX splitWitnessY ∧
    (trainTestSplit splitWitnessX splitWitnessY).2.1.length =
      (splitWitnessX.length + 4) / 5 ∧
    (trainTestSplit splitWitnessX splitWitnessY).1.length =
      splitWitnessX.length - (splitWitnessX.length + 4) / 5 ∧
    (((trainTestSplit splitWitnessX splitWitnessY).1.zip
        (trainTestSplit splitWitnessX splitWitnessY).2.2.1) ++
     ((trainTestSplit splitWitnessX splitWitnessY).2.1.zip
        (trainTestSplit splitWitnessX splitWitnessY).2.2.2)).Perm
      (splitWitnessX.zip splitWitnessY) ∧
    ((trainTestSplit splitWitnessX splitWitnessY).1 ++
      (trainTestSplit splitWitnessX splitWitnessY).2.1).Perm splitWitnessX ∧
    ((trainTestSplit splitWitnessX splitWitnessY).2.2.1 ++
      (trainTestSplit splitWitnessX splitWitnessY).2.2.2).Perm splitWitnessY :=
  C5_split_determinism splitWitnessX splitWitnessY (by decide)

/-! ### Rectangular-mask selection lemmas -/

/-- rowSelect of an empty mask row selects nothing. -/
theorem rowSelect_nil_mask (prow : List (List Val)) : rowSelect prow [] = [] := by
  simp [rowSelect]

/-- rowSelect of an empty pixel row selects nothing. -/
theorem rowSelect_nil_row (mrow : List Bool) : rowSelect [] mrow = [] := by
  simp [rowSelect]

/-- A True mask entry keeps the pixel. -/
theorem rowSelect_cons_true (p : List Val) (ps : List (List Val)) (ms : List Bool) :
    rowSelect (p :: ps) (true :: ms) = p :: rowSelect ps ms := by
  simp [rowSelect]

/-- A False mask entry drops the pixel. -/
theorem rowSelect_cons_false (p : List Val) (ps : List (List Val)) (ms : List Bool) :
    rowSelect (p :: ps) (false :: ms) = rowSelect ps ms := by
  simp [rowSelect]

/-- A run of False mask entries skips the corresponding columns. -/
theorem rowSelect_false_prefix (a : Nat) (rest : List Bool) (prow : List (List Val)) :
    rowSelect prow (List.replicate a false ++ rest) = rowSelect (prow.drop a) rest := by
  induction a generalizing prow with
  | zero => simp
  | succ a ih =>
    cases prow with
    | nil => simp [rowSelect_nil_row]
    | cons p ps =>
      rw [List.replicate_succ, List.cons_append, rowSelect_cons_false, ih]
      rfl

/-- A run of True mask entries keeps the corresponding columns. -/
theorem rowSelect_true_prefix (b : Nat) (rest : List Bool) (prow : List (List Val)) :
    rowSelect prow (List.replicate b true ++ rest) =
      prow.take b ++ rowSelect (prow.drop b) rest := by
  induction b generalizing prow with
  | zero => simp
  | succ b ih =>
    cases prow with
    | nil => simp [rowSelect_nil_row]
    | cons p ps =>
      rw [List.replicate_succ, List.cons_append, rowSelect_cons_true, ih]
      rfl

/-- An all-False mask row selects nothing. -/
theorem rowSelect_all_false (a : Nat) (prow : List (List Val)) :
    rowSelect prow (List.replicate a false) = [] := by
  have h := rowSelect_false_prefix a [] prow
  simpa [rowSelect_nil_mask] using h

/-- maskSelect on no pixel rows is empty. -/
theorem maskSelect_nil_left (mask : List (List Bool)) : maskSelect [] mask = [] := by
  simp [maskSelect]

/-- maskSelect with no mask rows is empty. -/
theorem maskSelect_nil_right (px : PixelGrid) : maskSelect px [] = [] := by
  simp [maskSelect]

/-- maskSelect processes one (pixel row, mask row) pair at a time. -/
theorem maskSelect_cons (p : List (List Val)) (ps : PixelGrid)
    (m : List Bool) (ms : List (List Bool)) :
    maskSelect (p :: ps) (m :: ms) = rowSelect p m ++ maskSelect ps ms := by
  simp [maskSelect]

/-- A run of all-False mask rows skips the corresponding pixel rows. -/
theorem maskSelect_false_rows (a w : Nat) (rest : List (List Bool)) (px : PixelGrid) :
    maskSelect px (List.replicate a (List.replicate w false) ++ rest) =
      maskSelect (px.drop a) rest := by
  induction a generalizing px with
  | zero => simp
  | succ a ih =>
    cases px with
    | nil => simp [maskSelect_nil_left]
    | cons p ps =>
      rw [List.replicate_succ, List.cons_append, maskSelect_cons,
        rowSelect_all_false, List.nil_append, ih]
      rfl

/-- A run of identical mask rows selects row by row. -/
theorem maskSelect_mid_rows (k : Nat) (mrow : List Bool)
    (rest : List (List Bool)) (px : PixelGrid) :
    maskSelect px (List.replicate k mrow ++ rest) =
      ((px.take k).map (fun prow => rowSelect prow mrow)).flatten ++
        maskSelect (px.drop k) rest := by
  induction k generalizing px with
  | zero => simp
  | succ k ih =>
    cases px with
    | nil => simp [maskSelect_nil_left]
    | cons p ps =>
      rw [List.replicate_succ, List.cons_append, maskSelect_cons, ih]
      simp [List.append_assoc]

/-- The stacked image is a well-formed (h, w, b) array. -/
def GridIsShape (px : PixelGrid) (h w b : Nat) : Prop :=
  px.length = h ∧ ∀ row ∈ px, row.length = w ∧ ∀ cell ∈ row, cell.length = b

/-- The rasterized mask of a rectangular polygon covering exactly the
k-by-k block with top-left corner (r0, c0) of an h-by-w grid. -/
def rectMask (h w r0 c0 k : Nat) : List (List Bool) :=
  List.replicate r0 (List.replicate w false) ++
  List.replicate k (List.replicate c0 false ++ List.replicate k true ++
    List.replicate (w - (c0 + k)) false) ++
  List.replicate (h - (r0 + k)) (List.replicate w false)

/-- The band vectors of that k-by-k pixel block, in row-major order:
entry (i, j) is the band vector of pixel (r0 + i, c0 + j). -/
def blockSamples (px : PixelGrid) (r0 c0 k : Nat) : List (List Val) :=
  (List.range k).flatMap (fun i => (List.range k).map (fun j =>
    (px.getD (r0 + i) []).getD (c0 + j) []))

/-- A contiguous slice of a list, read entry by entry. -/
theorem drop_take_eq_map_range (l : List α) (d : α) (a n : Nat)
    (h : a + n ≤ l.length) :
    (l.drop a).take n = (List.range n).map (fun i => l.getD (a + i) d) := by
  apply List.ext_getElem
  · simp only [List.length_take, List.length_drop, List.length_map, List.length_range]
    omega
  · intro i h1 h2
    have hia : a + i < l.length := by
      simp only [List.length_take, List.length_drop] at h1
      omega
    rw [List.getElem_take, List.getElem_drop]
    rw [List.getElem_map, List.getElem_range]
    exact (List.getD_eq_getElem l d hia).symm

/-- Selecting with the rectangular mask yields exactly the block's band
vectors in row-major order. -/
theorem maskSelect_rectMask (px : PixelGrid) (h w b r0 c0 k : Nat)
    (hg : GridIsShape px h w b) (hr : r0 + k ≤ h) (hc : c0 + k ≤ w) :
    maskSelect px (rectMask h w r0 c0 k) = blockSamples px r0 c0 k := by
  obtain ⟨hlen, hrow⟩ := hg
  unfold rectMask
  rw [List.append_assoc, maskSelect_false_rows, maskSelect_mid_rows]
  have htail : maskSelect ((px.drop r0).drop k)
      (List.replicate (h - (r0 + k)) (List.replicate w false)) = [] := by
    have ht := maskSelect_false_rows (h - (r0 + k)) w [] ((px.drop r0).drop k)
    simpa [maskSelect_nil_right] using ht
  rw [htail, List.append_nil]
  have houter : (px.drop r0).take k =
      (List.range k).map (fun i => px.getD (r0 + i) []) :=
    drop_take_eq_map_range px [] r0 k (by omega)
  rw [houter, List.map_map]
  have hinner : ∀ i ∈ List.range k,
      rowSelect (px.getD (r0 + i) [])
        (List.replicate c0 false ++ List.replicate k true ++
          List.replicate (w - (c0 + k)) false) =
      (List.range k).map (fun j => (px.getD (r0 + i) []).getD (c0 + j) []) := by
    intro i hi
    have hik : r0 + i < px.length := by
      have := List.mem_range.mp hi
      omega
    have hmem : px.getD (r0 + i) [] ∈ px := by
      rw [List.getD_eq_getElem px [] hik]
      exact List.getElem_mem hik
    have hwrow : (px.getD (r0 + i) []).length = w := (hrow _ hmem).1
    rw [List.append_assoc, rowSelect_false_prefix, rowSelect_true_prefix]
    have hslice : (((px.getD (r0 + i) []).drop c0).take k) =
        (List.range k).map (fun j => (px.getD (r0 + i) []).getD (c0 + j) []) :=
      drop_take_eq_map_range _ [] c0 k (by omega)
    rw [hslice, rowSelect_all_false, List.append_nil]
  simp only [Function.comp_def]
  rw [List.map_congr_left hinner]
  rw [blockSamples, List.flatMap_def]

/-- The block holds exactly k * k band vectors. -/
theorem blockSamples_length (px : PixelGrid) (r0 c0 k : Nat) :
    (blockSamples px r0 c0 k).length = k * k := by
  rw [blockSamples, List.flatMap_def, List.length_flatten, List.map_map]
  have hconst : (List.range k).map
      (List.length ∘ fun i => (List.range k).map (fun j =>
        (px.getD (r0 + i) []).getD (c0 + j) [])) = List.replicate k k := by
    rw [List.eq_replicate_iff]
    constructor
    · simp
    · intro x hx
      simp only [List.mem_map, Function.comp] at hx
      obtain ⟨i, _, hix⟩ := hx
      simp [← hix]
  rw [hconst, List.sum_replicate, smul_eq_mul]

/-- Every block sample is a cell of the grid. -/
theorem blockSamples_mem (px : PixelGrid) (h w b r0 c0 k : Nat)
    (hg : GridIsShape px h w b) (hr : r0 + k ≤ h) (hc : c0 + k ≤ w) :
    ∀ v ∈ blockSamples px r0 c0 k, ∃ row ∈ px, v ∈ row := by
  obtain ⟨hlen, hrow⟩ := hg
  intro v hv
  rw [blockSamples, List.mem_flatMap] at hv
  obtain ⟨i, hi, hv⟩ := hv
  rw [List.mem_map] at hv
  obtain ⟨j, hj, hv⟩ := hv
  have hik : r0 + i < px.length := by
    have := List.mem_range.mp hi
    omega
  have hmem : px.getD (r0 + i) [] ∈ px := by
    rw [List.getD_eq_getElem px [] hik]
    exact List.getElem_mem hik
  have hwrow : (px.getD (r0 + i) []).length = w := (hrow _ hmem).1
  refine ⟨px.getD (r0 + i) [], hmem, ?_⟩
  have hjw : c0 + j < (px.getD (r0 + i) []).length := by
    have := List.mem_range.mp hj
    omega
  rw [← hv, List.getD_eq_getElem _ [] hjw]
  exact List.getElem_mem hjw

/-- A labeled rectangular training polygon, already rasterized. -/
def rectPoly (h w r0 c0 k : Nat) (label : Int) : PolyLabeled :=
  ⟨rectMask h w r0 c0 k, label⟩

/-- With a single polygon the concatenation step returns its samples. -/
theorem extractX_single (px : PixelGrid) (p : PolyLabeled) :
    extractX px [p] = polygonSamples px p := by
  simp [extractX]

/-- With a single polygon the labels are one run of its attribute value. -/
theorem extractY_single (px : PixelGrid) (p : PolyLabeled) :
    extractY px [p] = List.replicate (polygonSamples px p).length p.label := by
  simp [extractY]

/-- Labels and features always come out the same length. -/
theorem extractY_length (px : PixelGrid) (polys : List PolyLabeled) :
    (extractY px polys).length = (extractX px polys).length := by
  unfold extractX extractY
  rw [List.flatMap_def, List.flatMap_def, List.length_flatten, List.length_flatten,
    List.map_map, List.map_map]
  congr 1
  apply List.map_congr_left
  intro p _
  simp

/-- On a NaN-free grid the rectangular polygon's samples are exactly the
block's band vectors. -/
theorem extractX_rect (px : PixelGrid) (h w b r0 c0 k : Nat) (label : Int)
    (hg : GridIsShape px h w b) (hr : r0 + k ≤ h) (hc : c0 + k ≤ w)
    (hvalid : ∀ row ∈ px, ∀ cell ∈ row, rowValid cell) :
    extractX px [rectPoly h w r0 c0 k label] = blockSamples px r0 c0 k := by
  rw [extractX_single]
  show dropNaN (maskSelect px (rectMask h w r0 c0 k)) = _
  rw [maskSelect_rectMask px h w b r0 c0 k hg hr hc]
  apply List.filter_eq_self.mpr
  intro v hv
  obtain ⟨row, hrowm, hvrow⟩ := blockSamples_mem px h w b r0 c0 k hg hr hc v hv
  exact hvalid row hrowm v hvrow

/-- C3. Training-sample extraction: on a NaN-free (h, w, b) stack with a
single rectangular polygon rasterized to the k-by-k block at (r0, c0),
the gathered sample matrix is exactly the band vectors of the block's
pixels in row-major order (sample (i, j) is the band vector of pixel
(r0 + i, c0 + j)); across the train and test partitions combined there are
exactly k * k samples, a permutation of those vectors, and every emitted
label is the polygon's class-attribute value. -/
theorem C3_sample_extraction (px : PixelGrid) (h w b r0 c0 k : Nat) (label : Int)
    (hg : GridIsShape px h w b) (hr : r0 + k ≤ h) (hc : c0 + k ≤ w)
    (hvalid : ∀ row ∈ px, ∀ cell ∈ row, rowValid cell) :
    extractX px [rectPoly h w r0 c0 k label] = blockSamples px r0 c0 k ∧
    ((TrainingDataExtractor.extract px [rectPoly h w r0 c0 k label]).1 ++
     (TrainingDataExtractor.extract px [rectPoly h w r0 c0 k label]).2.1).Perm
      (blockSamples px r0 c0 k) ∧
    (TrainingDataExtractor.extract px [rectPoly h w r0 c0 k label]).1.length +
      (TrainingDataExtractor.extract px [rectPoly h w r0 c0 k label]).2.1.length
        = k * k ∧
    (∀ lab ∈ (TrainingDataExtractor.extract px [rectPoly h w r0 c0 k label]).2.2.1 ++
        (TrainingDataExtractor.extract px [rectPoly h w r0 c0 k label]).2.2.2,
      lab = label) ∧
    (TrainingDataExtractor.extract px [rectPoly h w r0 c0 k label]).2.2.1.length +
      (TrainingDataExtractor.extract px [rectPoly h w r0 c0 k label]).2.2.2.length
        = k * k := by
  have hX := extractX_rect px h w b r0 c0 k label hg hr hc hvalid
  have hy : (extractY px [rectPoly h w r0 c0 k label]).length =
      (extractX px [rectPoly h w r0 c0 k label]).length := extractY_length px _
  have hXlen : (extractX px [rectPoly h w r0 c0 k label]).length = k * k := by
    rw [hX, blockSamples_length]
  have hXperm : ((TrainingDataExtractor.extract px [rectPoly h w r0 c0 k label]).1 ++
      (TrainingDataExtractor.extract px [rectPoly h w r0 c0 k label]).2.1).Perm
      (blockSamples px r0 c0 k) := by
    show ((trainTestSplit _ _).1 ++ (trainTestSplit _ _).2.1).Perm _
    exact (trainTestSplit_X_perm _ _).trans (hX ▸ List.Perm.refl _)
  have hYperm : ((TrainingDataExtractor.extract px [rectPoly h w r0 c0 k label]).2.2.1 ++
      (TrainingDataExtractor.extract px [rectPoly h w r0 c0 k label]).2.2.2).Perm
      (extractY px [rectPoly h w r0 c0 k label]) := by
    show ((trainTestSplit _ _).2.2.1 ++ (trainTestSplit _ _).2.2.2).Perm _
    exact trainTestSplit_y_perm _ _ hy
  refine ⟨hX, hXperm, ?_, ?_, ?_⟩
  · have := hXperm.length_eq
    rw [List.length_append, blockSamples_length] at this
    exact this
  · intro lab hlab
    have hmem : lab ∈ extractY px [rectPoly h w r0 c0 k label] :=
      hYperm.subset hlab
    rw [extractY_single] at hmem
    exact List.eq_of_mem_replicate hmem
  · have := hYperm.length_eq
    rw [List.length_append, hy, hXlen] at this
    exact this

/-- A NaN-free 2x2, 2-band stack used to witness C3. -/
def gridC3 : PixelGrid :=
  [[[some 1, some 10], [some 2, some 20]],
   [[some 3, some 30], [some 4, some 40]]]

/-- C3 witness: the extraction theorem applied to the concrete 2x2 stack
with a polygon covering the whole grid (k = 2) and label 7. -/
theorem C3_sample_extraction_witness :
    extractX gridC3 [rectPoly 2 2 0 0 2 7] = blockSamples gridC3 0 0 2 ∧
    ((TrainingDataExtractor.extract gridC3 [rectPoly 2 2 0 0 2 7]).1 ++
     (TrainingDataExtractor.extract gridC3 [rectPoly 2 2 0 0 2 7]).2.1).Perm
      (blockSamples gridC3 0 0 2) ∧
    (TrainingDataExtractor.extract gridC3 [rectPoly 2 2 0 0 2 7]).1.length +
      (TrainingDataExtractor.extract gridC3 [rectPoly 2 2 0 0 2 7]).2.1.length
        = 2 * 2 ∧
    (∀ lab ∈ (TrainingDataExtractor.extract gridC3 [rectPoly 2 2 0 0 2 7]).2.2.1 ++
        (TrainingDataExtractor.extract gridC3 [rectPoly 2 2 0 0 2 7]).2.2.2,
      lab = 7) ∧
    (TrainingDataExtractor.extract gridC3 [rectPoly 2 2 0 0 2 7]).2.2.1.length +
      (TrainingDataExtractor.extract gridC3 [rectPoly 2 2 0 0 2 7]).2.2.2.length
        = 2 * 2 :=
  C3_sample_extraction gridC3 2 2 2 0 0 2 7
    (by unfold GridIsShape gridC3; decide)
    (by decide) (by decide)
    (by unfold gridC3; decide)

/-- C8. NaN exclusion: (a) in every extraction run, over any grid and any
polygon list, every emitted feature vector is NaN-free; (b) if exactly one
band vector of the k-by-k block contains a NaN, the combined train plus
test sample count is k * k - 1, and no NaN-containing vector (in
particular that pixel's band vector) appears in the emitted samples. -/
theorem C8_nan_exclusion (px : PixelGrid) (h w b r0 c0 k : Nat) (label : Int)
    (hg : GridIsShape px h w b) (hr : r0 + k ≤ h) (hc : c0 + k ≤ w)
    (hone : (blockSamples px r0 c0 k).countP (fun v => !(rowValid v)) = 1) :
    (∀ (px2 : PixelGrid) (polys : List PolyLabeled),
      ∀ v ∈ extractX px2 polys, rowValid v) ∧
    (TrainingDataExtractor.extract px [rectPoly h w r0 c0 k label]).1.length +
      (TrainingDataExtractor.extract px [rectPoly h w r0 c0 k label]).2.1.length
        = k * k - 1 ∧
    (∀ v : List Val, rowValid v = false →
      v ∉ (TrainingDataExtractor.extract px [rectPoly h w r0 c0 k label]).1 ++
          (TrainingDataExtractor.extract px [rectPoly h w r0 c0 k label]).2.1) := by
  have hinv : ∀ (px2 : PixelGrid) (polys : List PolyLabeled),
      ∀ v ∈ extractX px2 polys, rowValid v := by
    intro px2 polys v hv
    rw [extractX, List.mem_flatMap] at hv
    obtain ⟨p, _, hv⟩ := hv
    exact List.of_mem_filter hv
  have hXall : extractX px [rectPoly h w r0 c0 k label] =
      (blockSamples px r0 c0 k).filter rowValid := by
    rw [extractX_single]
    show dropNaN (maskSelect px (rectMask h w r0 c0 k)) = _
    rw [maskSelect_rectMask px h w b r0 c0 k hg hr hc]
    rfl
  have hcongr : (blockSamples px r0 c0 k).countP
      (fun v => decide ¬(rowValid v = true)) = 1 := by
    rw [← hone]
    apply List.countP_congr
    intro v _
    cases rowValid v <;> simp
  have hXlen : (extractX px [rectPoly h w r0 c0 k label]).length = k * k - 1 := by
    rw [hXall, ← List.countP_eq_length_filter]
    have htot := (blockSamples px r0 c0 k).length_eq_countP_add_countP rowValid
    rw [blockSamples_length] at htot
    omega
  have hXperm : ((TrainingDataExtractor.extract px [rectPoly h w r0 c0 k label]).1 ++
      (TrainingDataExtractor.extract px [rectPoly h w r0 c0 k label]).2.1).Perm
      (extractX px [rectPoly h w r0 c0 k label]) := by
    show ((trainTestSplit _ _).1 ++ (trainTestSplit _ _).2.1).Perm _
    exact trainTestSplit_X_perm _ _
  refine ⟨hinv, ?_, ?_⟩
  · have := hXperm.length_eq
    rw [List.length_append, hXlen] at this
    exact this
  · intro v hvbad hvmem
    have hv : v ∈ extractX px [rectPoly h w r0 c0 k label] := hXperm.subset hvmem
    have := hinv px [rectPoly h w r0 c0 k label] v hv
    rw [hvbad] at this
    exact Bool.false_ne_true this

/-- A 2x2 single-band stack whose (0,0) pixel is NaN, witnessing C8. -/
def gridC8 : PixelGrid :=
  [[[none], [some 2]],
   [[some 3], [some 4]]]

/-- C8 witness: the NaN-exclusion theorem applied to the concrete stack
with one NaN pixel inside a full-grid polygon (k = 2). -/
theorem C8_nan_exclusion_witness :
    (∀ (px2 : PixelGrid) (polys : List PolyLabeled),
      ∀ v ∈ extractX px2 polys, rowValid v) ∧
    (TrainingDataExtractor.extract gridC8 [rectPoly 2 2 0 0 2 9]).1.length +
      (TrainingDataExtractor.extract gridC8 [rectPoly 2 2 0 0 2 9]).2.1.length
        = 2 * 2 - 1 ∧
    (∀ v : List Val, rowValid v = false →
      v ∉ (TrainingDataExtractor.extract gridC8 [rectPoly 2 2 0 0 2 9]).1 ++
          (TrainingDataExtractor.extract gridC8 [rectPoly 2 2 0 0 2 9]).2.1) :=
  C8_nan_exclusion gridC8 2 2 1 0 0 2 9
    (by unfold GridIsShape gridC8; decide)
    (by decide) (by decide)
    (by unfold blockSamples gridC8; decide)

/-! ## Accuracy assessment (accuracy.py / classify.py) -/

/-- Number of positions where prediction agrees with truth. -/
def matchCount (yt yp : List Int) : Nat :=
  (yt.zip yp).countP (fun a => decide (a.1 = a.2))

/-- Occurrences of class c in the truth vector. -/
def actualCount (yt : List Int) (c : Int) : Nat := yt.count c

/-- Occurrences of class c in the prediction vector. -/
def predCount (yp : List Int) (c : Int) : Nat := yp.count c

/-- True positives of class c. -/
def tpCount (yt yp : List Int) (c : Int) : Nat :=
  (yt.zip yp).countP (fun a => decide (a.1 = c ∧ a.2 = c))

/-- sklearn accuracy_score: the fraction of agreeing positions. -/
def accuracy_score (yt yp : List Int) : ℚ :=
  (matchCount yt yp : ℚ) / (yt.length : ℚ)

/-- sklearn recall_score with average=None, read at class c (producer
accuracy); a class absent from y_true gets 0 by the zero-division
convention (a warning, never an exception). -/
def recall_score (yt yp : List Int) (c : Int) : ℚ :=
  if actualCount yt c = 0 then 0
  else (tpCount yt yp c : ℚ) / (actualCount yt c : ℚ)

/-- sklearn precision_score with average=None, read at class c (user
accuracy); a class never predicted gets 0 by the zero-division convention
(a warning, never an exception). -/
def precision_score (yt yp : List Int) (c : Int) : ℚ :=
  if predCount yp c = 0 then 0
  else (tpCount yt yp c : ℚ) / (predCount yp c : ℚ)

/-- The classes the per-class metrics range over: the values occurring in
either label vector, one occurrence each. -/
def classesOf (yt yp : List Int) : List Int := (yt ++ yp).dedup

/-- sklearn cohen_kappa_score: (po - pe) / (1 - pe), with the expected
agreement pe taken from the marginal class-frequency distributions. -/
def cohen_kappa_score (yt yp : List Int) : ℚ :=
  (accuracy_score yt yp -
    ((classesOf yt yp).map (fun c =>
      ((actualCount yt c : ℚ) / (yt.length : ℚ)) *
      ((predCount yp c : ℚ) / (yt.length : ℚ)))).sum) /
  (1 - ((classesOf yt yp).map (fun c =>
      ((actualCount yt c : ℚ) / (yt.length : ℚ)) *
      ((predCount yp c : ℚ) / (yt.length : ℚ)))).sum)

/-- The report dict: producer and user accuracy are per-class readings
(the source arrays list them in sorted class order). -/
structure AccReport where
  overall_accuracy : ℚ
  producer_accuracy : Int → ℚ
  user_accuracy : Int → ℚ
  kappa : ℚ

namespace AccuracyAssessor

/-- accuracy.py AccuracyAssessor.report (same body in
code/satimgproc/classify.py): the four sklearn metrics; sklearn validation
raises ValueError when the two label arrays disagree in length. -/
def report (y_true y_pred : List Int) : Except String AccReport :=
  if y_true.length ≠ y_pred.length then
    Except.error "ValueError: inconsistent numbers of samples"
  else
    Except.ok
      { overall_accuracy := accuracy_score y_true y_pred
      , producer_accuracy := fun c => recall_score y_true y_pred c
      , user_accuracy := fun c => precision_score y_true y_pred c
      , kappa := cohen_kappa_score y_true y_pred }

end AccuracyAssessor

/-- C6. Accuracy metrics: on the reference input y_true = [0,0,1,1],
y_pred = [0,1,1,1] the report carries overall accuracy 3/4, producer
accuracy 1/2 for class 0 and 1 for class 1, user accuracy 1 for class 0
and within 1/100 of 0.667 for class 1, and a kappa strictly between 0 and
1; and in general the overall accuracy is the number of agreeing positions
divided by N. -/
theorem C6_accuracy_reference :
    (∃ r, AccuracyAssessor.report [0, 0, 1, 1] [0, 1, 1, 1] = Except.ok r ∧
      r.overall_accuracy = 3 / 4 ∧
      r.producer_accuracy 0 = 1 / 2 ∧ r.producer_accuracy 1 = 1 ∧
      r.user_accuracy 0 = 1 ∧
      |r.user_accuracy 1 - 667 / 1000| ≤ 1 / 100 ∧
      0 < r.kappa ∧ r.kappa < 1) ∧
    (∀ yt yp : List Int, accuracy_score yt yp =
      ((yt.zip yp).countP (fun a => decide (a.1 = a.2)) : ℚ) / (yt.length : ℚ)) := by
  constructor
  · refine ⟨_, rfl, ?_, ?_, ?_, ?_, ?_, ?_, ?_⟩ <;>
      simp [accuracy_score, recall_score, precision_score, cohen_kappa_score,
        matchCount, tpCount, actualCount, predCount, classesOf, abs_le] <;>
      norm_num
  · intro yt yp
    rfl

/-- C9. Unpredicted class: when some class occurs in y_true but never in
y_pred (equal-length, non-empty inputs), report still succeeds and that
class's user accuracy is 0 by the zero-division convention. -/
theorem C9_unpredicted_class (yt yp : List Int) (c : Int)
    (hlen : yt.length = yp.length) (hne : yt ≠ [])
    (hc : c ∈ yt) (hcp : c ∉ yp) :
    ∃ r, AccuracyAssessor.report yt yp = Except.ok r ∧ r.user_accuracy c = 0 := by
  have hrep : AccuracyAssessor.report yt yp = Except.ok
      { overall_accuracy := accuracy_score yt yp
      , producer_accuracy := fun c2 => recall_score yt yp c2
      , user_accuracy := fun c2 => precision_score yt yp c2
      , kappa := cohen_kappa_score yt yp } := by
    rw [AccuracyAssessor.report, if_neg (by omega)]
  refine ⟨_, hrep, ?_⟩
  show precision_score yt yp c = 0
  have h0 : predCount yp c = 0 := List.count_eq_zero.mpr hcp
  rw [precision_score, if_pos h0]

/-- C9 witness: class 0 occurs in the truth vector [0, 1] but never in the
prediction vector [1, 1]; the report succeeds and gives it user accuracy 0. -/
theorem C9_unpredicted_class_witness :
    ∃ r, AccuracyAssessor.report [0, 1] [1, 1] = Except.ok r ∧
      r.user_accuracy 0 = 0 :=
  C9_unpredicted_class [0, 1] [1, 1] 0 (by decide) (by decide)
    (by decide) (by decide)

/-! ## Classifier training (decision_tree.py / classify.py) -/

/-- The fitted state sklearn stores after fit: opaque to the pipeline;
retaining the training data is enough for this model of it. -/
structure FittedTree where
  Xfit : List (List Val)
  yfit : List Int

/-- Modelled: sklearn DecisionTreeClassifier.fit input validation, the only
behavior the repository code relies on here. fit raises ValueError when X
and y have different lengths or when there are no samples; it accepts any
non-empty label vector, including a single-class one (the fitted tree then
predicts that class everywhere). -/
def skDecisionTreeFit (X : List (List Val)) (y : List Int) :
    Except String FittedTree :=
  if X.length ≠ y.length then
    Except.error "ValueError: inconsistent numbers of samples"
  else if X.length = 0 then
    Except.error "ValueError: 0 samples"
  else
    Except.ok ⟨X, y⟩

namespace DecisionTree

/-- code/satimgproc/classify.py DecisionTree.train (same body as
DecisionTreeClassifierStrategy.train in
classification/supclass/classifiers/decision_tree.py): delegates straight
to sklearn fit, adding no validation of its own. -/
def train (X : List (List Val)) (y : List Int) : Except String FittedTree :=
  skDecisionTreeFit X y

end DecisionTree

/-- C4 counterexample: a label vector with a single distinct class trains
successfully, so "train fails whenever y has fewer than 2 distinct class
values" is false on the code. -/
theorem C4_counterexample :
    ([5, 5] : List Int).dedup.length = 1 ∧
    DecisionTree.train [[some 0], [some 1]] [5, 5] =
      Except.ok ⟨[[some 0], [some 1]], [5, 5]⟩ := by
  constructor
  · decide
  · rfl

/-- C4 (amended). Classifier training precondition: train fails with
sklearn's ValueError whenever the lengths of X and y disagree (and when
the sample set is empty); it performs no distinct-class check, so any
matching non-empty input — single-class labels included — trains
successfully. -/
theorem C4_train_validation (X : List (List Val)) (y : List Int) :
    (X.length ≠ y.length →
      DecisionTree.train X y =
        Except.error "ValueError: inconsistent numbers of samples") ∧
    (X.length = y.length → X ≠ [] →
      DecisionTree.train X y = Except.ok ⟨X, y⟩) := by
  constructor
  · intro hne
    rw [DecisionTree.train, skDecisionTreeFit, if_pos hne]
  · intro heq hXne
    rw [DecisionTree.train, skDecisionTreeFit, if_neg (by omega),
      if_neg (by simpa [List.length_eq_zero] using hXne)]

/-- C4 witness: mismatched lengths fail; matching non-empty inputs with a
two-class label vector succeed. -/
theorem C4_train_validation_witness :
    DecisionTree.train [[some 0]] [3, 4] =
      Except.error "ValueError: inconsistent numbers of samples" ∧
    DecisionTree.train [[some 0], [some 1]] [5, 6] =
      Except.ok ⟨[[some 0], [some 1]], [5, 6]⟩ :=
  ⟨(C4_train_validation [[some 0]] [3, 4]).1 (by decide),
   (C4_train_validation [[some 0], [some 1]] [5, 6]).2 (by decide) (by decide)⟩

/-! ## Full-image classification paths
(supervised_ui.py step 6, unsupervised_ui.py steps 2-4) -/

/-- image_array.reshape(-1, b): the flattened per-pixel band vectors in
row-major order. -/
def flattenImage (px : PixelGrid) : List (List Val) := px.flatten

/-- unsupervised_ui.py: valid_pixels = flat_image[valid_mask]; these are
the only rows the cluster model is fitted on and invoked on. -/
def unsupervisedInvokedRows (px : PixelGrid) : List (List Val) :=
  (flattenImage px).filter rowValid

/-- unsupervised_ui.py step 4: classified = np.full(n, -1, np.int16), then
classified[valid_mask] = labels. Walking the flat rows in order, a valid
row consumes the next model label and an invalid row keeps the sentinel -1. -/
def scatterLabels : List (List Val) → List Nat → List Int
  | [], _ => []
  | v :: rest, ls =>
    if rowValid v then ((ls.headD 0 : Nat) : Int) :: scatterLabels rest ls.tail
    else (-1 : Int) :: scatterLabels rest ls

/-- The unsupervised full-image path, parametric in the fitted model's
classify function (KMeans cluster ids are naturals): flatten, classify only
the valid rows, scatter the labels back with sentinel -1 elsewhere. -/
def unsupervisedFullClassify (classify : List (List Val) → List Nat)
    (px : PixelGrid) : List Int :=
  scatterLabels (flattenImage px) (classify (unsupervisedInvokedRows px))

/-- supervised_ui.py step 6: flat_pixels = image_array.reshape(-1, b) and
flat_predictions = classifier.predict(flat_pixels) — the trained classifier
is invoked on every flattened row, with no valid-row masking. -/
def supervisedInvokedRows (px : PixelGrid) : List (List Val) :=
  flattenImage px

/-- supervised_ui.py step 6 output: one model prediction per flattened
row; no sentinel is assigned anywhere on this path. -/
def supervisedFullClassify (predict : List (List Val) → List Int)
    (px : PixelGrid) : List Int :=
  predict (supervisedInvokedRows px)

/-- Scatter specification: output length matches the flat image; reading
the output back at the valid positions returns exactly the model's labels
in order; every invalid position carries -1. -/
theorem scatterLabels_spec (flat : List (List Val)) (ls : List Nat)
    (hlen : ls.length = (flat.filter rowValid).length) :
    (scatterLabels flat ls).length = flat.length ∧
    ((flat.zip (scatterLabels flat ls)).filterMap
      (fun p => if rowValid p.1 then some p.2 else none)) =
      ls.map (fun n => Int.ofNat n) ∧
    (∀ p ∈ flat.zip (scatterLabels flat ls), rowValid p.1 = false → p.2 = -1) := by
  induction flat generalizing ls with
  | nil =>
    rw [List.filter_nil, List.length_nil, List.length_eq_zero] at hlen
    subst hlen
    simp [scatterLabels]
  | cons v rest ih =>
    by_cases hv : rowValid v
    · rw [List.filter_cons_of_pos hv, List.length_cons] at hlen
      cases ls with
      | nil => simp at hlen
      | cons l0 lt =>
        rw [List.length_cons] at hlen
        obtain ⟨ihl, ihm, ihs⟩ := ih lt (by omega)
        rw [scatterLabels, if_pos hv]
        refine ⟨?_, ?_, ?_⟩
        · simpa using ihl
        · rw [List.zip_cons_cons, List.filterMap_cons]
          simp only [hv, if_pos, List.headD, List.tail]
          rw [List.map_cons]
          exact congrArg _ ihm
        · intro p hp
          rw [List.zip_cons_cons, List.mem_cons] at hp
          rcases hp with hp | hp
          · intro hbad
            rw [hp] at hbad
            simp only at hbad
            rw [hv] at hbad
            exact absurd hbad (by simp)
          · exact ihs p hp
    · rw [List.filter_cons_of_neg hv] at hlen
      obtain ⟨ihl, ihm, ihs⟩ := ih ls hlen
      rw [scatterLabels, if_neg hv]
      refine ⟨?_, ?_, ?_⟩
      · simpa using ihl
      · rw [List.zip_cons_cons, List.filterMap_cons]
        simp only [Bool.not_eq_true] at hv
        simp only [hv]
        exact ihm
      · intro p hp
        rw [List.zip_cons_cons, List.mem_cons] at hp
        rcases hp with hp | hp
        · intro _
          rw [hp]
        · exact ihs p hp

/-- C1 (amended). Unsupervised full-image classification: the cluster
model is invoked only on NaN-free flattened rows; in the reassembled
output the valid positions carry exactly the model's labels in order, the
positions with missing band data carry the sentinel -1, and -1 is distinct
from every legitimate cluster id (cluster ids are naturals). The
hypothesis states the one fact used about the external model: it returns
one label per input row. -/
theorem C1_unsupervised_full_image (px : PixelGrid)
    (classify : List (List Val) → List Nat)
    (hclen : ∀ X, (classify X).length = X.length) :
    (∀ v ∈ unsupervisedInvokedRows px, rowValid v) ∧
    (unsupervisedFullClassify classify px).length = (flattenImage px).length ∧
    ((flattenImage px).zip (unsupervisedFullClassify classify px)).filterMap
      (fun p => if rowValid p.1 then some p.2 else none) =
      (classify (unsupervisedInvokedRows px)).map (fun n => Int.ofNat n) ∧
    (∀ p ∈ (flattenImage px).zip (unsupervisedFullClassify classify px),
      rowValid p.1 = false → p.2 = -1) ∧
    (∀ n : Nat, ((n : Int) = -1) = False) := by
  have hspec := scatterLabels_spec (flattenImage px)
    (classify (unsupervisedInvokedRows px))
    (by rw [hclen]; rfl)
  refine ⟨?_, hspec.1, hspec.2.1, hspec.2.2, ?_⟩
  · intro v hv
    exact List.of_mem_filter hv
  · intro n
    simp only [eq_iff_iff, iff_false]
    omega

/-- A 1x2 single-band stack whose first pixel is NaN. -/
def gridC1 : PixelGrid := [[[none], [some 3]]]

/-- C1 witness: the unsupervised theorem applied to the concrete stack
with one NaN pixel and the constant-0 cluster model. -/
theorem C1_unsupervised_full_image_witness :
    (∀ v ∈ unsupervisedInvokedRows gridC1, rowValid v) ∧
    (unsupervisedFullClassify (fun (X : List (List Val)) => X.map (fun _ => 0)) gridC1).length =
      (flattenImage gridC1).length ∧
    ((flattenImage gridC1).zip
        (unsupervisedFullClassify (fun (X : List (List Val)) => X.map (fun _ => 0)) gridC1)).filterMap
      (fun p => if rowValid p.1 then some p.2 else none) =
      ((fun (X : List (List Val)) => X.map (fun _ => 0)) (unsupervisedInvokedRows gridC1)).map
        (fun n => Int.ofNat n) ∧
    (∀ p ∈ (flattenImage gridC1).zip
        (unsupervisedFullClassify (fun (X : List (List Val)) => X.map (fun _ => 0)) gridC1),
      rowValid p.1 = false → p.2 = -1) ∧
    (∀ n : Nat, ((n : Int) = -1) = False) :=
  C1_unsupervised_full_image gridC1 (fun (X : List (List Val)) => X.map (fun _ => 0))
    (by intro X; simp)

/-- C1 counterexample: on the supervised path the trained classifier is
invoked on a row containing a NaN (the flattened rows are passed to
predict unmasked), and the reassembled output assigns that invalid pixel
an ordinary model label (0, the same label a valid pixel gets) instead of
a reserved sentinel — so the claim, which asserts the property for both
paths, is false on the code. -/
theorem C1_counterexample :
    ([none] ∈ supervisedInvokedRows gridC1 ∧ rowValid [none] = false) ∧
    supervisedFullClassify (fun X => X.map (fun _ => (0 : Int))) gridC1 =
      [0, 0] := by
  exact ⟨⟨by decide, by decide⟩, by decide⟩

/-! ## DataPreprocessor stateful interface (classify.py) -/

/-- Geospatial metadata captured from the last-read raster. Its content is
opaque to the logic modelled here (only passed through to the external
rasterizer), so it is a unit value; what matters is whether it is None. -/
abbrev Meta := Unit

/-- The DataPreprocessor object state: image_array and meta both start as
None and are filled only by stack_bands. The shapefile is modelled already
read and rasterized (gpd.read_file and geometry_mask are external). -/
structure DataPreprocessor where
  band_paths : List RasterFile
  polys : List PolyLabeled
  image_array : Option PixelGrid
  meta : Option Meta

namespace DataPreprocessor

/-- classify.py DataPreprocessor.stack_bands: stacks the bands and stores
the array and metadata on the object; a numpy error propagates before
either assignment happens. -/
def stack_bands (st : DataPreprocessor) :
    Except String (PixelGrid × Meta) × DataPreprocessor :=
  match BandStacker.stack st.band_paths with
  | Except.ok px => (Except.ok (px, ()),
      { st with image_array := some px, meta := some () })
  | Except.error e => (Except.error e, st)

/-- classify.py DataPreprocessor.extract_training_data, lines 79-104:
raises ValueError when stack_bands has not run (image_array or meta still
None); otherwise extracts and splits. The method assigns no object state
in either branch. -/
def extract_training_data (st : DataPreprocessor) :
    Except String (List (List Val) × List (List Val) × List Int × List Int) ×
      DataPreprocessor :=
  match st.image_array, st.meta with
  | some px, some _ => (Except.ok (TrainingDataExtractor.extract px st.polys), st)
  | none, _ =>
      (Except.error "ValueError: Call stack_bands() before extracting training data.", st)
  | _, none =>
      (Except.error "ValueError: Call stack_bands() before extracting training data.", st)

end DataPreprocessor

/-- C10. Precondition guard: calling extract_training_data while the
stored image array or metadata is still None raises ValueError, emits no
extraction result, and leaves the preprocessor state unchanged. -/
theorem C10_precondition_guard (st : DataPreprocessor)
    (hpre : st.image_array = none ∨ st.meta = none) :
    (st.extract_training_data).1 =
      Except.error "ValueError: Call stack_bands() before extracting training data." ∧
    (st.extract_training_data).2 = st := by
  cases hia : st.image_array with
  | none => simp [DataPreprocessor.extract_training_data, hia]
  | some px =>
    cases hm : st.meta with
    | none => simp [DataPreprocessor.extract_training_data, hia, hm]
    | some m =>
      rcases hpre with hpre | hpre
      · rw [hia] at hpre
        exact absurd hpre (by simp)
      · rw [hm] at hpre
        exact absurd hpre (by simp)

/-- A freshly constructed preprocessor: stack_bands has not run. -/
def freshPreprocessor : DataPreprocessor :=
  { band_paths := [fileA], polys := [], image_array := none, meta := none }

/-- C10 witness: the guard theorem applied to a fresh preprocessor. -/
theorem C10_precondition_guard_witness :
    (freshPreprocessor.extract_training_data).1 =
      Except.error "ValueError: Call stack_bands() before extracting training data." ∧
    (freshPreprocessor.extract_training_data).2 = freshPreprocessor :=
  C10_precondition_guard freshPreprocessor (Or.inl rfl)

end OtSip
